import Mathlib

/-!
Verification of the discovery-components UI widgets.

The development shallowly embeds the observable logic of three components:

* `SearchInput` (src/packages/discovery-components-react/src/components/SearchInput/
  SearchInput.tsx): search box with debounced autocomplete fetching, autocompletion
  selection, Enter-key search submission and spelling-suggestion selection.
* `RuleGroupDropdown` (src/packages/discovery-react-components/src/components/
  StructuredQuery/components/RuleGroupDropdown/RuleGroupDropdown.tsx): the All/Any
  operator dropdown of the structured-query builder.
* `SearchRefinements`: the faceted refinement checkboxes.  Only its test file is in
  the sources, so its filter-string construction is modelled from the spec.

React `useState` state is carried explicitly in state records; calls to the external
search API (`performSearch`, `fetchAutocompletions`) are modelled as emitted call
lists returned next to the new state.
-/

namespace DiscoveryComponents

/-- Watson Discovery query parameters (`DiscoveryV1.QueryParams`) as read and written
by the components.  The fields the components touch are explicit; `rest` stands for
every remaining property of the object, which a TypeScript object spread
(`{ ...searchParameters, ... }`) copies unchanged. -/
structure QueryParams where
  natural_language_query : Option String
  offset : Option Nat
  filter : Option String
  spelling_suggestions : Option Bool
  rest : List (String × String)
deriving Repr, DecidableEq

/-- JavaScript `String.prototype.split` with a single-character separator, on char
lists.  The components use `splitSearchQuerySelector`, a single space by default.
`"".split(sep)` is `[""]` and consecutive separators yield empty tokens, as in JS. -/
def jsSplitChar (sep : Char) : List Char → List (List Char)
  | [] => [[]]
  | c :: rest =>
    let r := jsSplitChar sep rest
    if c = sep then [] :: r
    else (c :: r.headD []) :: r.tail

/-- `value.split(splitSearchQuerySelector)` lifted to `String`. -/
def splitSearch (sep : Char) (value : String) : List String :=
  (jsSplitChar sep value.toList).map (fun cs => String.mk cs)

/-- JavaScript string truthiness: `s || ''` evaluates to `''` exactly when `s` is
the empty string. -/
def jsOrEmpty : Option String → String
  | some c => if c = "" then "" else c
  | none => ""

namespace SearchInput

/-- The `completions` field of autocompletion results
(`autocompletionResults.completions`); `none` models an absent property. -/
structure AutocompletionResults where
  completions : Option (List String)
deriving Repr, DecidableEq

/-- `const completions = (autocompletionResults && autocompletionResults.completions) || [];`
(SearchInput.tsx line 108): the completions list always defaults to an array. -/
def completionsOf (autocompletionResults : Option AutocompletionResults) : List String :=
  (autocompletionResults.bind (fun r => r.completions)).getD []

/-- `selectAutocompletion` (SearchInput.tsx lines 120-125), producing the new input
value passed to `setValue`.  `completions` is `Option` so that the
`!!completions ? completions[i] : prefix` ternary is embedded as written; the
component always passes an array (see `completionsOf`).  `completions[i]` out of
range is JS `undefined`, embedded as `List.get?`; `completionValue || ''` is
`jsOrEmpty`. -/
def selectAutocompletion (sep : Char) (value : String) (completions : Option (List String))
    (i : Nat) : String :=
  let valueArray := splitSearch sep value
  let lastWord := valueArray.getLastD ""
  let popped := valueArray.dropLast
  let completionValue : Option String :=
    match completions with
    | some cs => cs.get? i
    | none => some lastWord
  let pushed := popped ++ [jsOrEmpty completionValue]
  String.intercalate (String.mk [sep]) pushed ++ String.mk [sep]

/-- `selectAutocompletion` as the component wires it: the completions list is the
always-an-array value of line 108. -/
def componentSelectAutocompletion (sep : Char) (value : String)
    (autocompletionResults : Option AutocompletionResults) (i : Nat) : String :=
  selectAutocompletion sep value (some (completionsOf autocompletionResults)) i

/-- `prepareFreshSearchParameters` (SearchInput.tsx lines 135-145): spread the
current parameters, then set `natural_language_query`, reset `offset` to 0 and
`filter` to the empty string. -/
def prepareFreshSearchParameters (searchParameters : QueryParams) (nlq : String) :
    QueryParams :=
  { searchParameters with
    natural_language_query := some nlq
    offset := some 0
    filter := some "" }

/-- Local component state: the controlled input `value`, the
`skipFetchAutoCompletions` flag and the shared `searchParameters` from context. -/
structure State where
  value : String
  skipFetchAutoCompletions : Bool
  searchParameters : QueryParams
deriving Repr, DecidableEq

/-- `searchAndBlur` (SearchInput.tsx lines 161-170): the list of `performSearch`
calls it makes (exactly one, with freshly prepared parameters). -/
def searchAndBlur (st : State) (v : String) : List QueryParams :=
  [prepareFreshSearchParameters st.searchParameters v]

/-- `handleOnKeyUp` (SearchInput.tsx lines 210-214): Enter submits the current
input value, any other key does nothing. -/
def handleOnKeyUp (st : State) (key : String) : List QueryParams :=
  if key = "Enter" then searchAndBlur st st.value else []

/-- The `setSearchParameters` updater passed by the debounce effect
(SearchInput.tsx lines 174-179): spread the current parameters and set
`natural_language_query` to the debounced term. -/
def debounceSetSearchParameters (currentSearchParameters : QueryParams)
    (debouncedSearchTerm : String) : QueryParams :=
  { currentSearchParameters with natural_language_query := some debouncedSearchTerm }

/-- One run of the debounce effect (SearchInput.tsx lines 173-187): update the
shared parameters, then either fetch autocompletions for the debounced term or, if
`skipFetchAutoCompletions` is set, clear the flag and fetch nothing.  Returns the
new state and the arguments of the `fetchAutocompletions` calls made. -/
def debounceEffect (st : State) (debouncedSearchTerm : String) : State × List String :=
  let st1 := { st with
    searchParameters := debounceSetSearchParameters st.searchParameters debouncedSearchTerm }
  if !st1.skipFetchAutoCompletions then
    (st1, [debouncedSearchTerm])
  else
    ({ st1 with skipFetchAutoCompletions := false }, [])

/-- Modelled from the spec: `useDebounce(value, 500)` (src/utils/useDebounce is not
among the provided sources).  Given the initial value and the input-change events
`(time, newValue)` in order, the debounced term observed at time `t` is the value
of the latest change whose 500 ms (`delay`) interval has elapsed by `t`. -/
def debouncedAt (initial : String) (changes : List (Nat × String)) (delay t : Nat) :
    String :=
  changes.foldl (fun acc c => if c.1 + delay ≤ t then c.2 else acc) initial

/-- `selectSuggestion` (SearchInput.tsx lines 230-237): when the spelling
suggestion is truthy (a non-empty string), set `skipFetchAutoCompletions`, set the
input value to the suggestion and search with it.  Returns the new state and the
`performSearch` calls made. -/
def selectSuggestion (st : State) (suggestedQuery : Option String) :
    State × List QueryParams :=
  match suggestedQuery with
  | some s =>
    if s = "" then (st, [])
    else
      let st1 := { st with skipFetchAutoCompletions := true, value := s }
      (st1, searchAndBlur st1 s)
  | none => (st, [])

end SearchInput

namespace RuleGroupDropdown

/-- One entry of `ruleGroupDropdownItems`: a display label and the operator value. -/
structure DropdownItem where
  label : String
  value : String
deriving Repr, DecidableEq

/-- The structured-query selection state; only the `operator` field is touched by
the dropdown, `rest` stands for the spread-copied remainder
(`{ ...structuredQuerySelection, operator: ... }`). -/
structure StructuredQuerySelection where
  operator : String
  rest : List (String × String)
deriving Repr, DecidableEq

/-- `ruleGroupDropdownItems` (RuleGroupDropdown.tsx): the 'All' option carries the
value `','` and the 'Any' option the value `'|'`. -/
def ruleGroupDropdownItems (allOptionText anyOptionText : String) : List DropdownItem :=
  [⟨allOptionText, ","⟩, ⟨anyOptionText, "|"⟩]

/-- `handleOnChange` (RuleGroupDropdown.tsx lines 35-40): spread the current
selection and set `operator` to the selected item's value. -/
def handleOnChange (structuredQuerySelection : StructuredQuerySelection)
    (selectedItem : DropdownItem) : StructuredQuerySelection :=
  { structuredQuerySelection with operator := selectedItem.value }

end RuleGroupDropdown

namespace SearchRefinements

/-- Modelled from the spec: the `field:value` token of one refinement field, its
checked values joined by `'|'` (OR).  The SearchRefinements component itself is not
among the provided sources (only its test file is); the filter-string syntax is the
spec's "`field:value` tokens joined by `,`/`|`". -/
def fieldToken (field : String) (values : List String) : String :=
  field ++ ":" ++ String.intercalate "|" values

/-- Modelled from the spec: the filter string built from the checked refinement
checkboxes.  `selections` lists, in configuration order, each refinement field with
its currently checked values; fields with no checked value contribute no token, and
the tokens of the remaining fields are joined by `','` (AND). -/
def buildFilter (selections : List (String × List String)) : String :=
  String.intercalate ","
    ((selections.filter (fun p => !p.2.isEmpty)).map (fun p => fieldToken p.1 p.2))

/-- Modelled from the spec: checking a checkbox adds its value to the checked
values of its field. -/
def checkValue (selections : List (String × List String)) (field value : String) :
    List (String × List String) :=
  selections.map (fun p => if p.1 = field then (p.1, p.2 ++ [value]) else p)

/-- Modelled from the spec: unchecking a checkbox removes its value from the
checked values of its field (filter-string deconstruction). -/
def uncheckValue (selections : List (String × List String)) (field value : String) :
    List (String × List String) :=
  selections.map (fun p => if p.1 = field then (p.1, p.2.filter (fun w => w ≠ value)) else p)

/-- Modelled from the spec: a checkbox toggle rebuilds the filter string from the
new checked set and submits exactly one `performSearch` with the updated
parameters (the test file also shows `offset` reset to 0).  Returns the updated
parameters and the list of `performSearch` calls made. -/
def toggleCheckbox (sp : QueryParams) (selections : List (String × List String))
    (field value : String) (nowChecked : Bool) : QueryParams × List QueryParams :=
  let selections1 :=
    if nowChecked then checkValue selections field value
    else uncheckValue selections field value
  let sp1 := { sp with filter := some (buildFilter selections1), offset := some 0 }
  (sp1, [sp1])

end SearchRefinements

/-! ## Helper lemmas -/

theorem jsOrEmpty_some (c : String) : jsOrEmpty (some c) = c := by
  unfold jsOrEmpty
  split <;> simp_all

theorem jsOrEmpty_none : jsOrEmpty none = "" := rfl

/-! ## Claims -/

/-- C1: for every set of checked refinement checkboxes, the filter string passed to
`performSearch` is a sequence of `field:value` tokens in which the checked values of
one field are joined by `'|'` (OR) and tokens of different fields are joined by
`','` (AND); in particular, checking 'News Staff' of field 'author' while
'subject:Animals' is already selected yields 'author:News Staff,subject:Animals'. -/
theorem c1_checkbox_filter_construction (sp : QueryParams)
    (selections : List (String × List String)) (field value : String) :
    (SearchRefinements.toggleCheckbox sp selections field value true).2 =
      [(SearchRefinements.toggleCheckbox sp selections field value true).1] ∧
    (SearchRefinements.toggleCheckbox sp selections field value true).1.filter =
      some (SearchRefinements.buildFilter
        (SearchRefinements.checkValue selections field value)) ∧
    SearchRefinements.buildFilter selections =
      String.intercalate ","
        ((selections.filter (fun p => !p.2.isEmpty)).map
          (fun p => p.1 ++ ":" ++ String.intercalate "|" p.2)) ∧
    (SearchRefinements.toggleCheckbox sp [("author", []), ("subject", ["Animals"])]
        "author" "News Staff" true).1.filter = some "author:News Staff,subject:Animals" ∧
    (SearchRefinements.toggleCheckbox sp [("author", []), ("subject", ["Animals"])]
        "subject" "People" true).1.filter = some "subject:Animals|People" ∧
    (SearchRefinements.toggleCheckbox sp [("author", []), ("subject", [])]
        "subject" "Animals" true).1.filter = some "subject:Animals" :=
  ⟨rfl, rfl, rfl, rfl, rfl, rfl⟩

/-- C2: for every in-range index `i` of the completions list,
`selectAutocompletion i` replaces the last token of the input value (tokens
delimited by the single-character `splitSearchQuerySelector`, by default `' '`)
with `completions[i]`, appending a trailing separator. -/
theorem c2_select_autocompletion_splices_last_token (sep : Char) (value : String)
    (cs : List String) (i : Nat) (h : i < cs.length) :
    SearchInput.selectAutocompletion sep value (some cs) i =
      String.intercalate (String.mk [sep])
        ((splitSearch sep value).dropLast ++ [cs.get ⟨i, h⟩]) ++ String.mk [sep] := by
  unfold SearchInput.selectAutocompletion
  simp [List.getElem?_eq_getElem h, jsOrEmpty_some]

/-- C2 witness: completing the query 'machine le' with the first completion
'machine learning' of the list. -/
theorem c2_witness :
    SearchInput.selectAutocompletion ' ' "machine le"
        (some ["machine learning", "machine lease"]) 0 =
      String.intercalate (String.mk [' '])
        ((splitSearch ' ' "machine le").dropLast ++
          [(["machine learning", "machine lease"] : List String).get ⟨0, by decide⟩]) ++
        String.mk [' '] :=
  c2_select_autocompletion_splices_last_token ' ' "machine le"
    ["machine learning", "machine lease"] 0 (by decide)

/-- C3 counterexample: not every change of the input text leads, once the debounce
interval has elapsed, to a `fetchAutocompletions` call with the debounced text.
After a spelling-suggestion click changes the text to 'did you mean' (and sets the
`skipFetchAutoCompletions` flag), the next run of to the debounce effect makes no
`fetchAutocompletions` call at all. -/
theorem c3_counterexample :
    ¬ ("did you mean" ∈ (SearchInput.debounceEffect
        (SearchInput.selectSuggestion
          ⟨"did yuo mean", false, ⟨none, none, none, none, []⟩⟩
          (some "did you mean")).1 "did you mean").2) := by
  decide

/-- C3 (amended): for every change of the input text, after the 500 ms debounce
interval elapses the debounced term equals the last entered value and, unless the
`skipFetchAutoCompletions` flag was set by a spelling-suggestion click (in which
case that run clears the flag and fetches nothing), the debounce effect calls
`fetchAutocompletions` exactly once, with the debounced input text. -/
theorem c3_debounced_fetch (st : SearchInput.State) (initial : String)
    (earlier : List (Nat × String)) (u : Nat) (v : String) (t : Nat)
    (hskip : st.skipFetchAutoCompletions = false) (ht : u + 500 ≤ t) :
    SearchInput.debouncedAt initial (earlier ++ [(u, v)]) 500 t = v ∧
    (SearchInput.debounceEffect st
        (SearchInput.debouncedAt initial (earlier ++ [(u, v)]) 500 t)).2 = [v] := by
  have hdeb : SearchInput.debouncedAt initial (earlier ++ [(u, v)]) 500 t = v := by
    simp [SearchInput.debouncedAt, List.foldl_append, ht]
  refine ⟨hdeb, ?_⟩
  simp [hdeb, SearchInput.debounceEffect, hskip]

/-- C3 witness: with changes at times 0 and 10 and the flag clear, at time 510 the
debounced term is the last value 'ab' and the effect fetches exactly it. -/
theorem c3_witness :
    (SearchInput.debounceEffect ⟨"ab", false, ⟨none, none, none, none, []⟩⟩
        (SearchInput.debouncedAt "" ([(0, "a")] ++ [(10, "ab")]) 500 510)).2 = ["ab"] :=
  (c3_debounced_fetch ⟨"ab", false, ⟨none, none, none, none, []⟩⟩ ""
    [(0, "a")] 10 "ab" 510 rfl (by decide)).2

/-- C4: in RuleGroupDropdown the 'All' option is the dropdown item carrying the
operator value `','` and the 'Any' option the item carrying `'|'`, and selecting an
item sets `structuredQuerySelection.operator` to that item's value, leaving the
rest of the selection unchanged. -/
theorem c4_rule_group_dropdown_operator (allOptionText anyOptionText : String)
    (sel : RuleGroupDropdown.StructuredQuerySelection)
    (item : RuleGroupDropdown.DropdownItem) :
    (RuleGroupDropdown.ruleGroupDropdownItems allOptionText anyOptionText).get? 0 =
      some ⟨allOptionText, ","⟩ ∧
    (RuleGroupDropdown.ruleGroupDropdownItems allOptionText anyOptionText).get? 1 =
      some ⟨anyOptionText, "|"⟩ ∧
    (RuleGroupDropdown.handleOnChange sel item).operator = item.value ∧
    (RuleGroupDropdown.handleOnChange sel item).rest = sel.rest ∧
    (RuleGroupDropdown.handleOnChange sel ⟨allOptionText, ","⟩).operator = "," ∧
    (RuleGroupDropdown.handleOnChange sel ⟨anyOptionText, "|"⟩).operator = "|" :=
  ⟨rfl, rfl, rfl, rfl, rfl, rfl⟩

/-- C5: unchecking a checked refinement checkbox removes its value from the checked
set, hence its `field:value` token from the filter string; unchecking the only
checked value triggers exactly one `performSearch` call whose filter is the empty
string. -/
theorem c5_uncheck_removes_filter :
    (∀ (sp : QueryParams) (field value : String),
      (SearchRefinements.toggleCheckbox sp [(field, [value])] field value false).2 =
        [{ sp with filter := some "", offset := some 0 }]) ∧
    (∀ (selections : List (String × List String)) (field value : String)
        (p : String × List String),
      p ∈ SearchRefinements.uncheckValue selections field value →
      p.1 = field → value ∉ p.2) ∧
    (∀ sp : QueryParams,
      (SearchRefinements.toggleCheckbox sp
          [("author", ["News Staff"]), ("subject", ["Animals"])]
          "author" "News Staff" false).1.filter = some "subject:Animals") := by
  refine ⟨?_, ?_, ?_⟩
  · intro sp field value
    simp [SearchRefinements.toggleCheckbox, SearchRefinements.uncheckValue,
      SearchRefinements.buildFilter]
    rfl
  · intro selections field value p hp hpf
    simp only [SearchRefinements.uncheckValue, List.mem_map] at hp
    obtain ⟨q, hq, rfl⟩ := hp
    by_cases h : q.1 = field
    · simp only [h, if_pos rfl] at hpf ⊢
      simp [List.mem_filter]
    · simp only [if_neg h] at hpf
      exact absurd hpf h
  · intro sp
    rfl

/-- C5 witness: unchecking 'Animals' when 'Animals' and 'People' are checked for
'subject' leaves a checked set from which 'Animals' is gone. -/
theorem c5_witness :
    "Animals" ∉ (("subject", ["People"]) : String × List String).2 :=
  c5_uncheck_removes_filter.2.1 [("subject", ["Animals", "People"])] "subject"
    "Animals" ("subject", ["People"]) (by decide) rfl

/-- C6: pressing Enter in the search input performs exactly one search, whose
parameters carry the current input text as `natural_language_query`. -/
theorem c6_enter_performs_search (st : SearchInput.State) :
    SearchInput.handleOnKeyUp st "Enter" =
      [SearchInput.prepareFreshSearchParameters st.searchParameters st.value] ∧
    (SearchInput.handleOnKeyUp st "Enter").map QueryParams.natural_language_query =
      [some st.value] :=
  ⟨rfl, rfl⟩

/-- C7: each run of the debounce effect updates the shared search parameters so
that `natural_language_query` equals the debounced term while every other field
(`offset`, `filter`, `spelling_suggestions` and the spread-copied rest) is left
unchanged. -/
theorem c7_debounce_updates_only_nlq (sp : QueryParams) (term : String)
    (st : SearchInput.State) :
    (SearchInput.debounceSetSearchParameters sp term).natural_language_query =
      some term ∧
    (SearchInput.debounceSetSearchParameters sp term).offset = sp.offset ∧
    (SearchInput.debounceSetSearchParameters sp term).filter = sp.filter ∧
    (SearchInput.debounceSetSearchParameters sp term).spelling_suggestions =
      sp.spelling_suggestions ∧
    (SearchInput.debounceSetSearchParameters sp term).rest = sp.rest ∧
    (SearchInput.debounceEffect st term).1.searchParameters =
      SearchInput.debounceSetSearchParameters st.searchParameters term := by
  refine ⟨rfl, rfl, rfl, rfl, rfl, ?_⟩
  cases h : st.skipFetchAutoCompletions <;> simp [SearchInput.debounceEffect, h]

/-- C8: every search submitted from the search box (Enter key or spelling
suggestion) goes through `prepareFreshSearchParameters`, which resets `offset` to 0
and `filter` to the empty string, sets the query text, and preserves every other
field of the current parameters. -/
theorem c8_fresh_search_parameters (sp : QueryParams) (nlq : String)
    (st : SearchInput.State) (s : String) (hs : s ≠ "") :
    (SearchInput.prepareFreshSearchParameters sp nlq).offset = some 0 ∧
    (SearchInput.prepareFreshSearchParameters sp nlq).filter = some "" ∧
    (SearchInput.prepareFreshSearchParameters sp nlq).natural_language_query =
      some nlq ∧
    (SearchInput.prepareFreshSearchParameters sp nlq).spelling_suggestions =
      sp.spelling_suggestions ∧
    (SearchInput.prepareFreshSearchParameters sp nlq).rest = sp.rest ∧
    SearchInput.handleOnKeyUp st "Enter" =
      [SearchInput.prepareFreshSearchParameters st.searchParameters st.value] ∧
    (SearchInput.selectSuggestion st (some s)).2 =
      [SearchInput.prepareFreshSearchParameters st.searchParameters s] := by
  refine ⟨rfl, rfl, rfl, rfl, rfl, rfl, ?_⟩
  simp [SearchInput.selectSuggestion, hs, SearchInput.searchAndBlur]

/-- C8 witness: a spelling-suggestion search for 'hey' submits exactly the freshly
prepared parameters. -/
theorem c8_witness :
    (SearchInput.selectSuggestion ⟨"a", false, ⟨none, none, none, none, []⟩⟩
        (some "hey")).2 =
      [SearchInput.prepareFreshSearchParameters ⟨none, none, none, none, []⟩ "hey"] :=
  (c8_fresh_search_parameters ⟨none, none, none, none, []⟩ "hey"
    ⟨"a", false, ⟨none, none, none, none, []⟩⟩ "hey" (by decide)).2.2.2.2.2.2

/-- C9: `selectAutocompletion` is total in the index: whenever `i` is out of range
of the always-an-array completions list (in particular when the list is empty), the
last token of the value is replaced by the empty string — the fallback that would
reinsert the typed last word is unreachable in the component. -/
theorem c9_select_autocompletion_total (sep : Char) (value : String)
    (r : Option SearchInput.AutocompletionResults) (i : Nat)
    (h : (SearchInput.completionsOf r).length ≤ i) :
    SearchInput.componentSelectAutocompletion sep value r i =
      String.intercalate (String.mk [sep])
        ((splitSearch sep value).dropLast ++ [""]) ++ String.mk [sep] := by
  unfold SearchInput.componentSelectAutocompletion SearchInput.selectAutocompletion
  simp [List.getElem?_eq_none h, jsOrEmpty_none]

/-- C9 witness: with no autocompletion results at all (empty completions list),
selecting index 0 replaces the last token 'le' of 'machine le' by the empty
string. -/
theorem c9_witness :
    SearchInput.componentSelectAutocompletion ' ' "machine le" none 0 =
      String.intercalate (String.mk [' '])
        ((splitSearch ' ' "machine le").dropLast ++ [""]) ++ String.mk [' '] :=
  c9_select_autocompletion_total ' ' "machine le" none 0 (by decide)

/-- C10: clicking the spelling-suggestion button sets the input value to the
suggested query, performs exactly one search with it, and sets the
`skipFetchAutoCompletions` flag, so that the next run of the debounce effect
fetches nothing and clears the flag, while the run after that fetches again. -/
theorem c10_select_suggestion_skips_one_fetch (st : SearchInput.State) (s : String)
    (t1 t2 : String) (hs : s ≠ "") :
    (SearchInput.selectSuggestion st (some s)).1.value = s ∧
    (SearchInput.selectSuggestion st (some s)).1.skipFetchAutoCompletions = true ∧
    (SearchInput.selectSuggestion st (some s)).2 =
      [SearchInput.prepareFreshSearchParameters st.searchParameters s] ∧
    (SearchInput.debounceEffect (SearchInput.selectSuggestion st (some s)).1 t1).2 =
      [] ∧
    (SearchInput.debounceEffect
        (SearchInput.selectSuggestion st (some s)).1 t1).1.skipFetchAutoCompletions =
      false ∧
    (SearchInput.debounceEffect
        (SearchInput.debounceEffect
          (SearchInput.selectSuggestion st (some s)).1 t1).1 t2).2 = [t2] := by
  simp [SearchInput.selectSuggestion, hs, SearchInput.debounceEffect,
    SearchInput.searchAndBlur]

/-- C10 witness: selecting the suggestion 'did you mean' suppresses the fetch for
the run right after it, and only that one. -/
theorem c10_witness :
    (SearchInput.debounceEffect
        (SearchInput.debounceEffect
          (SearchInput.selectSuggestion
            ⟨"did yuo mean", false, ⟨none, none, none, none, []⟩⟩
            (some "did you mean")).1 "did you mean").1 "did you mean").2 =
      ["did you mean"] :=
  (c10_select_suggestion_skips_one_fetch
    ⟨"did yuo mean", false, ⟨none, none, none, none, []⟩⟩ "did you mean"
    "did you mean" "did you mean" (by decide)).2.2.2.2.2

end DiscoveryComponents
